import Mathlib

/-!
Shallow embedding of the refresh-token exchange core of `server/refreshhandlers.go`
(giantswarm/dex).  Go machine types are modelled as follows: `string` as `String`,
`[]byte` as `List Nat`, `time.Time` as `Nat` (an abstract instant; the policy
predicates are abstract Boolean functions of such instants), Go maps as
association lists.  External collaborators (storage backend, connectors, token
minting, the refresh-token codec) appear as explicit parameters, so every Dex
function here is a pure function of its inputs.
-/

namespace Dex

/-- Handle held by the client, `internal.RefreshToken`: a pair of refresh-token
id and current secret. -/
structure InternalRefreshToken where
  refreshId : String
  token : String
deriving DecidableEq, Repr

/-- Identity snapshot stored with a refresh token, `storage.Claims`. -/
structure Claims where
  userID : String
  username : String
  preferredUsername : String
  email : String
  emailVerified : Bool
  groups : List String
deriving DecidableEq, Repr

/-- Persisted refresh grant, `storage.RefreshToken`. -/
structure StoredRefreshToken where
  id : String
  clientID : String
  token : String
  obsoleteToken : String
  createdAt : Nat
  lastUsed : Nat
  claims : Claims
  connectorID : String
  connectorData : List Nat
  scopes : List String
  nonce : String
deriving DecidableEq, Repr

/-- Per-client entry of an offline session, `storage.RefreshTokenRef`
(only the fields this file touches). -/
structure RefreshTokenRef where
  id : String
  lastUsed : Nat
deriving DecidableEq, Repr

/-- Per-(user, connector) offline session, `storage.OfflineSessions`.
The Go `Refresh` field is a map from client id to a refresh-token reference;
it is modelled as an association list. -/
structure OfflineSessions where
  refresh : List (String × RefreshTokenRef)
  connectorData : List Nat
deriving DecidableEq, Repr

/-- In-memory identity produced by a connector, `connector.Identity`. -/
structure Identity where
  userID : String
  username : String
  preferredUsername : String
  email : String
  emailVerified : Bool
  groups : List String
  connectorData : List Nat
deriving DecidableEq, Repr

/-- The rotation/expiry policy `s.refreshTokenPolicy`.  Its four methods are
pure predicates over timestamps (spec section 4.B); they are modelled as
abstract Boolean functions of the relevant stored instant, the injected
`now` being folded into the function. -/
structure RefreshTokenPolicy where
  rotationEnabled : Bool
  allowedToReuse : Nat → Bool
  completelyExpired : Nat → Bool
  expiredBecauseUnused : Nat → Bool

/-- Modelled from the spec: the OAuth2 error code strings `errInvalidRequest`
and `errInvalidGrant` are defined in the repository outside this slice; the
spec's error taxonomy (section 7) gives their wire values. -/
def errInvalidRequest : String := "invalid_request"

/-- Modelled from the spec: wire value of the cross-client error code
(RFC 6749 section 5.2, spec section 7). -/
def errInvalidGrant : String := "invalid_grant"

/-- Error triple `refreshError`: OAuth2 error code string, HTTP status,
human-readable description. -/
structure RefreshError where
  msg : String
  code : Nat
  desc : String
deriving DecidableEq, Repr

/-- Translation of `newInternalServerError`: note that the Go source sets
`msg` to `errInvalidRequest` (not a distinct server-error code) with HTTP
status 500. -/
def newInternalServerError : RefreshError :=
  { msg := errInvalidRequest, desc := "", code := 500 }

/-- Translation of `newBadRequestError`. -/
def newBadRequestError (desc : String) : RefreshError :=
  { msg := errInvalidRequest, desc := desc, code := 400 }

/-- Translation of the helper `contains`. -/
def contains (arr : List String) (item : String) : Bool :=
  match arr with
  | [] => false
  | itemFromArray :: rest => if itemFromArray = item then true else contains rest item

/-- Outcome of `s.storage.GetRefresh`: the record, storage not-found, or any
other storage error. -/
inductive GetRefreshResult where
  | found (r : StoredRefreshToken)
  | notFound
  | otherError
deriving DecidableEq, Repr

/-- The non-disclosing description used both for unknown ids and for double
use, from `getRefreshTokenFromStorage`. -/
def invalidErrDesc (clientID refreshId : String) : String :=
  "clientID " ++ clientID ++ " refresh token (ID " ++ refreshId ++
    ") is invalid or has already been claimed by another client."

/-- Translation of `getRefreshTokenFromStorage` (the validator).  The Go
`switch` with `fallthrough` on the secret-mismatch path rejects exactly when
reuse is not allowed, or the obsolete token differs from the presented secret,
or the obsolete token is empty; both expiry branches return the same
"Refresh token expired." error. -/
def getRefreshTokenFromStorage (p : RefreshTokenPolicy) (clientID : String)
    (token : InternalRefreshToken) (getResult : GetRefreshResult) :
    Except RefreshError StoredRefreshToken :=
  let invalidErr := newBadRequestError (invalidErrDesc clientID token.refreshId)
  match getResult with
  | .otherError => .error newInternalServerError
  | .notFound => .error invalidErr
  | .found refresh =>
    if refresh.clientID ≠ clientID then
      .error { msg := errInvalidGrant, desc := invalidErr.desc, code := 400 }
    else if refresh.token ≠ token.token ∧
        (p.allowedToReuse refresh.lastUsed = false ∨
         refresh.obsoleteToken ≠ token.token ∨ refresh.obsoleteToken = "") then
      .error invalidErr
    else if p.completelyExpired refresh.createdAt then
      .error (newBadRequestError "Refresh token expired.")
    else if p.expiredBecauseUnused refresh.lastUsed then
      .error (newBadRequestError "Refresh token expired.")
    else
      .ok refresh

/-- Model of Go `strings.Fields` on a character list: splits around maximal
runs of whitespace. -/
def fieldsAux : List Char → List Char → List String
  | [], acc => if acc.isEmpty then [] else [String.mk acc.reverse]
  | c :: cs, acc =>
    if c.isWhitespace then
      if acc.isEmpty then fieldsAux cs [] else String.mk acc.reverse :: fieldsAux cs []
    else
      fieldsAux cs (c :: acc)

/-- Model of Go `strings.Fields`. -/
def stringFields (s : String) : List String := fieldsAux s.data []

/-- Model of `fmt.Sprintf` with verb `%q` on a string slice, for scope
strings (which contain no characters needing escapes): each element
double-quoted, space separated, in brackets. -/
def goQuoteList (xs : List String) : String :=
  "[" ++ String.intercalate " " (xs.map (fun s => "\"" ++ s ++ "\"")) ++ "]"

/-- The unauthorized-scope error description built in `getRefreshScopes`. -/
def unauthorizedScopesDesc (unauthorizedScopes : List String) : String :=
  "Requested scopes contain unauthorized scope(s): " ++ goQuoteList unauthorizedScopes ++ "."

/-- Translation of `getRefreshScopes` (the scope reconciler).  `scopeField` is
the value of the request form field `scope`; the Go append loop that collects
unauthorized scopes is a filter in request order. -/
def getRefreshScopes (scopeField : String) (refresh : StoredRefreshToken) :
    Except RefreshError (List String) :=
  if scopeField = "" then
    .ok refresh.scopes
  else
    let requestedScopes := stringFields scopeField
    let unauthorizedScopes :=
      requestedScopes.filter (fun requestScope => ! contains refresh.scopes requestScope)
    if unauthorizedScopes.length > 0 then
      .error (newBadRequestError (unauthorizedScopesDesc unauthorizedScopes))
    else
      .ok requestedScopes

/-- Outcome of `s.storage.GetOfflineSessions`. -/
inductive GetSessionResult where
  | found (s : OfflineSessions)
  | notFound
  | otherError
deriving Repr

/-- Model of a resolved connector: whether it implements the
`connector.RefreshConnector` capability, and if so its `Refresh` method
(an abstract function from scopes and identity to a new identity or an
error; the external `parseScopes` conversion is folded into it). -/
structure ConnectorCase where
  hasRefresh : Bool
  refreshIdent : List String → Identity → Except Unit Identity

/-- Connector-data selection switch at the top of `refreshWithConnector`:
the error case is examined first, so a not-found session leaves the
connector data empty even when the record-level value is non-empty; only
with a successfully loaded session is the record-level value preferred. -/
def chooseConnectorData (refresh : StoredRefreshToken)
    (sessionResult : GetSessionResult) : Except RefreshError (List Nat) :=
  match sessionResult with
  | .otherError => .error newInternalServerError
  | .notFound => .ok []
  | .found session =>
    if refresh.connectorData.length > 0 then .ok refresh.connectorData
    else .ok session.connectorData

/-- Translation of `refreshWithConnector` (the identity refresher).
`sessionResult` stands for the `s.storage.GetOfflineSessions` call and
`connResult` for `s.getConnector` (`none` models a lookup error). -/
def refreshWithConnector (p : RefreshTokenPolicy) (token : InternalRefreshToken)
    (refresh : StoredRefreshToken) (scopes : List String)
    (sessionResult : GetSessionResult) (connResult : Option ConnectorCase) :
    Except RefreshError Identity :=
  match chooseConnectorData refresh sessionResult with
  | .error e => .error e
  | .ok connectorData =>
    match connResult with
    | none => .error newInternalServerError
    | some conn =>
      let ident : Identity :=
        { userID := refresh.claims.userID
          username := refresh.claims.username
          preferredUsername := refresh.claims.preferredUsername
          email := refresh.claims.email
          emailVerified := refresh.claims.emailVerified
          groups := refresh.claims.groups
          connectorData := connectorData }
      if p.allowedToReuse refresh.lastUsed ∧ token.token = refresh.obsoleteToken then
        .ok ident
      else if conn.hasRefresh then
        match conn.refreshIdent scopes ident with
        | .error _ => .error newInternalServerError
        | .ok newIdent => .ok newIdent
      else
        .ok ident

/-- The field updates shared by both success paths of the closure
`refreshTokenUpdater` in `updateRefreshToken`: install the new secret,
overwrite the identity claims (`UserID` intentionally ignored), stamp
`lastUsed`, and clear the record-level connector data. -/
def applyClaimsUpdate (old : StoredRefreshToken) (newToken : InternalRefreshToken)
    (ident : Identity) (lastUsed : Nat) : StoredRefreshToken :=
  { old with
    token := newToken.token
    claims := { old.claims with
      username := ident.username
      preferredUsername := ident.preferredUsername
      email := ident.email
      emailVerified := ident.emailVerified
      groups := ident.groups }
    lastUsed := lastUsed
    connectorData := [] }

/-- Translation of the closure `refreshTokenUpdater` inside
`updateRefreshToken`, invoked by the storage with the freshest persisted
value `old`.  The Go closure mutates the captured `newToken` and `lastUsed`
variables on the reuse path; here the function returns the new stored value
together with the (possibly rewritten) handle and `lastUsed` value. -/
def refreshTokenUpdater (p : RefreshTokenPolicy) (token newToken : InternalRefreshToken)
    (ident : Identity) (lastUsed : Nat) (old : StoredRefreshToken) :
    Except String (StoredRefreshToken × InternalRefreshToken × Nat) :=
  if p.rotationEnabled then
    if old.token ≠ token.token then
      if p.allowedToReuse old.lastUsed ∧ old.obsoleteToken = token.token then
        .ok (old, { newToken with token := old.token }, old.lastUsed)
      else
        .error "refresh token claimed twice"
    else
      .ok (applyClaimsUpdate { old with obsoleteToken := old.token } newToken ident lastUsed,
        newToken, lastUsed)
  else
    .ok (applyClaimsUpdate old newToken ident lastUsed, newToken, lastUsed)

/-- Association-list lookup for the offline-session `Refresh` map. -/
def lookupRef (m : List (String × RefreshTokenRef)) (k : String) : Option RefreshTokenRef :=
  match m with
  | [] => none
  | (k1, v) :: rest => if k1 = k then some v else lookupRef rest k

/-- Association-list pointwise update for the offline-session `Refresh` map. -/
def setRef (m : List (String × RefreshTokenRef)) (k : String) (v : RefreshTokenRef) :
    List (String × RefreshTokenRef) :=
  match m with
  | [] => []
  | (k1, v1) :: rest =>
    if k1 = k then (k1, v) :: setRef rest k v else (k1, v1) :: setRef rest k v

/-- Translation of the closure `offlineSessionUpdater` inside
`updateOfflineSession`.  In Go, `old.Refresh` maps client ids to pointers,
so a missing client entry is a nil dereference (a runtime fault); that case
is modelled as a distinct error string and never exercised by the claims. -/
def offlineSessionUpdater (refresh : StoredRefreshToken) (ident : Identity)
    (lastUsed : Nat) (old : OfflineSessions) : Except String OfflineSessions :=
  match lookupRef old.refresh refresh.clientID with
  | none => .error "nil refresh token reference"
  | some ref =>
    if ref.id ≠ refresh.id then
      .error "refresh token invalid"
    else
      .ok { old with
        refresh := setRef old.refresh refresh.clientID { ref with lastUsed := lastUsed }
        connectorData := ident.connectorData }

/-- The persisted state the handler touches: the refresh-token table keyed by
id and the offline-session table keyed by (user id, connector id). -/
structure World where
  refreshTokens : List (String × StoredRefreshToken)
  sessions : List ((String × String) × OfflineSessions)
deriving DecidableEq, Repr

/-- Association-list lookup for the refresh-token table. -/
def lookupTok (m : List (String × StoredRefreshToken)) (k : String) :
    Option StoredRefreshToken :=
  match m with
  | [] => none
  | (k1, v) :: rest => if k1 = k then some v else lookupTok rest k

/-- Association-list pointwise update for the refresh-token table. -/
def setTok (m : List (String × StoredRefreshToken)) (k : String)
    (v : StoredRefreshToken) : List (String × StoredRefreshToken) :=
  match m with
  | [] => []
  | (k1, v1) :: rest =>
    if k1 = k then (k1, v) :: setTok rest k v else (k1, v1) :: setTok rest k v

/-- Association-list lookup for the offline-session table. -/
def lookupSess (m : List ((String × String) × OfflineSessions)) (k : String × String) :
    Option OfflineSessions :=
  match m with
  | [] => none
  | (k1, v) :: rest => if k1 = k then some v else lookupSess rest k

/-- Association-list pointwise update for the offline-session table. -/
def setSess (m : List ((String × String) × OfflineSessions)) (k : String × String)
    (v : OfflineSessions) : List ((String × String) × OfflineSessions) :=
  match m with
  | [] => []
  | (k1, v1) :: rest =>
    if k1 = k then (k1, v) :: setSess rest k v else (k1, v1) :: setSess rest k v

/-- Read model of `s.storage.GetRefresh` against the world (the sequential
model injects no transient storage faults; `GetRefreshResult.otherError` is
exercised by the standalone validator theorems). -/
def World.getRefresh (w : World) (id : String) : GetRefreshResult :=
  match lookupTok w.refreshTokens id with
  | some r => .found r
  | none => .notFound

/-- Read model of `s.storage.GetOfflineSessions` against the world. -/
def World.getOfflineSessions (w : World) (userID connectorID : String) : GetSessionResult :=
  match lookupSess w.sessions (userID, connectorID) with
  | some s => .found s
  | none => .notFound

/-- Translation of `updateOfflineSession`: run `offlineSessionUpdater` through
the storage compare-and-update primitive; any error (including a missing
session, which `UpdateOfflineSessions` reports as not-found) maps to the
internal server error. -/
def updateOfflineSession (refresh : StoredRefreshToken) (ident : Identity)
    (lastUsed : Nat) (w : World) : Except RefreshError World :=
  match lookupSess w.sessions (refresh.claims.userID, refresh.connectorID) with
  | none => .error newInternalServerError
  | some sess =>
    match offlineSessionUpdater refresh ident lastUsed sess with
    | .error _ => .error newInternalServerError
    | .ok sess1 =>
      .ok { w with sessions := setSess w.sessions (refresh.claims.userID, refresh.connectorID) sess1 }

/-- Server configuration and external collaborators of `handleRefreshToken`:
the policy, the Giant Swarm groups-prefixing flag `s.oidcGroupsPrefix`, the
codec decoder, the connector registry, the outcomes of the two token-minting
calls, the `storage.NewID()` draw, and the injected clock. -/
structure ServerCfg where
  refreshTokenPolicy : RefreshTokenPolicy
  groupsPrefixEnabled : Bool
  unmarshalToken : String → Option InternalRefreshToken
  getConnector : String → Option ConnectorCase
  mintAccessResult : Option String
  mintIDResult : Option (String × Nat)
  newId : String
  now : Nat

/-- Translation of `updateRefreshToken` (the rotator): build the candidate
new handle (a fresh secret when rotation is enabled, the presented handle
otherwise), run `refreshTokenUpdater` through the storage compare-and-update
primitive keyed by `refresh.ID` (in this sequential model the freshest value
is the current world entry), then run `updateOfflineSession` with the
`lastUsed` value the updater settled on.  The world is returned alongside
the outcome because a session-update failure leaves the already-committed
token update in place. -/
def updateRefreshToken (s : ServerCfg) (token : InternalRefreshToken)
    (refresh : StoredRefreshToken) (ident : Identity) (w : World) :
    Except RefreshError InternalRefreshToken × World :=
  let newToken :=
    if s.refreshTokenPolicy.rotationEnabled then
      { refreshId := refresh.id, token := s.newId }
    else token
  let lastUsed := s.now
  match lookupTok w.refreshTokens refresh.id with
  | none => (.error newInternalServerError, w)
  | some old =>
    match refreshTokenUpdater s.refreshTokenPolicy token newToken ident lastUsed old with
    | .error _ => (.error newInternalServerError, w)
    | .ok (newStored, newToken1, lastUsed1) =>
      let w1 : World := { w with refreshTokens := setTok w.refreshTokens refresh.id newStored }
      match updateOfflineSession refresh ident lastUsed1 w1 with
      | .error e => (.error e, w1)
      | .ok w2 => (.ok newToken1, w2)

/-- Translation of `extractRefreshTokenFromRequest`.  Modelled from the spec:
the codec `internal.Unmarshal` lives outside this slice and appears as the
abstract decoder `s.unmarshalToken`; per the source comment, a value that
fails to decode is treated as a legacy bare refresh-token id with an empty
secret. -/
def extractRefreshTokenFromRequest (s : ServerCfg) (refreshTokenField : String) :
    Except RefreshError InternalRefreshToken :=
  if refreshTokenField = "" then
    .error (newBadRequestError "No refresh token is found in request.")
  else
    match s.unmarshalToken refreshTokenField with
    | some t => .ok t
    | none => .ok { refreshId := refreshTokenField, token := "" }

/-- Result of the handler: a single OAuth2 error envelope, or the success
response.  `success` carries the claims embedded in the minted access and ID
tokens, the reconciled scopes, the new refresh-token handle (the codec
encoding is outside this slice), and the minted token strings with the ID
token expiry. -/
inductive Response where
  | failure (e : RefreshError)
  | success (claims : Claims) (scopes : List String) (newToken : InternalRefreshToken)
      (accessToken idToken : String) (expiry : Nat)
deriving DecidableEq, Repr

/-- Translation of `handleRefreshToken` (the orchestrator).  Note the groups
prefix: the Go loop rewrites `ident.Groups` in place through the slice's
backing array before `updateRefreshToken(token, refresh, ident)` is called,
so the identity the rotator persists carries the prefixed groups; the
embedding makes that sharing explicit by passing the rewritten identity on. -/
def handleRefreshToken (s : ServerCfg) (w : World) (clientID : String)
    (refreshTokenField scopeField : String) : Response × World :=
  match extractRefreshTokenFromRequest s refreshTokenField with
  | .error e => (.failure e, w)
  | .ok token =>
    match getRefreshTokenFromStorage s.refreshTokenPolicy clientID token
        (w.getRefresh token.refreshId) with
    | .error e => (.failure e, w)
    | .ok refresh =>
      match getRefreshScopes scopeField refresh with
      | .error e => (.failure e, w)
      | .ok scopes =>
        match refreshWithConnector s.refreshTokenPolicy token refresh scopes
            (w.getOfflineSessions refresh.claims.userID refresh.connectorID)
            (s.getConnector refresh.connectorID) with
        | .error e => (.failure e, w)
        | .ok ident0 =>
          let ident :=
            if s.groupsPrefixEnabled then
              { ident0 with groups := ident0.groups.map (fun g => refresh.connectorID ++ ":" ++ g) }
            else ident0
          let claims : Claims :=
            { userID := ident.userID
              username := ident.username
              preferredUsername := ident.preferredUsername
              email := ident.email
              emailVerified := ident.emailVerified
              groups := ident.groups }
          match s.mintAccessResult with
          | none => (.failure newInternalServerError, w)
          | some accessToken =>
            match s.mintIDResult with
            | none => (.failure newInternalServerError, w)
            | some (idToken, expiry) =>
              match updateRefreshToken s token refresh ident w with
              | (.error e, w1) => (.failure e, w1)
              | (.ok newToken, w1) =>
                (.success claims scopes newToken accessToken idToken expiry, w1)

/-! Concrete fixtures used by counterexamples and witnesses. -/

/-- Policy with rotation disabled and every time predicate false. -/
def polOff : RefreshTokenPolicy :=
  { rotationEnabled := false
    allowedToReuse := fun _ => false
    completelyExpired := fun _ => false
    expiredBecauseUnused := fun _ => false }

/-- Policy with rotation enabled, reuse window always open, nothing expired. -/
def polRot : RefreshTokenPolicy :=
  { rotationEnabled := true
    allowedToReuse := fun _ => true
    completelyExpired := fun _ => false
    expiredBecauseUnused := fun _ => false }

/-- A sample claims snapshot with a single unprefixed group. -/
def claimsA : Claims :=
  { userID := "U1", username := "u", preferredUsername := "", email := "e"
    emailVerified := true, groups := ["a"] }

/-- A sample stored refresh token bound to client C1 and connector ldap. -/
def storedA : StoredRefreshToken :=
  { id := "R1", clientID := "C1", token := "T1", obsoleteToken := ""
    createdAt := 0, lastUsed := 0, claims := claimsA, connectorID := "ldap"
    connectorData := [], scopes := ["openid"], nonce := "" }

/-- The offline session matching `storedA`. -/
def sessionA : OfflineSessions :=
  { refresh := [("C1", { id := "R1", lastUsed := 0 })], connectorData := [] }

/-- A world holding exactly `storedA` and `sessionA`. -/
def worldA : World :=
  { refreshTokens := [("R1", storedA)]
    sessions := [(("U1", "ldap"), sessionA)] }

/-- A connector without the Refresh capability. -/
def connNoRefresh : ConnectorCase :=
  { hasRefresh := false, refreshIdent := fun _ i => .ok i }

/-- Server configuration: rotation with always-open reuse window, groups
prefixing enabled, a codec recognising one encoded handle, successful
minting, fresh secret T2, clock at 5. -/
def cfgA : ServerCfg :=
  { refreshTokenPolicy := polRot
    groupsPrefixEnabled := true
    unmarshalToken := fun s => if s = "tokR1T1" then some { refreshId := "R1", token := "T1" } else none
    getConnector := fun cid => if cid = "ldap" then some connNoRefresh else none
    mintAccessResult := some "AT"
    mintIDResult := some ("IDT", 30)
    newId := "T2"
    now := 5 }

/-- The persisted record after the C1 run: rotated secret, and the groups
written back in their prefixed form. -/
def storedAAfter : StoredRefreshToken :=
  { storedA with
    token := "T2"
    obsoleteToken := "T1"
    claims := { claimsA with groups := ["ldap:a"] }
    lastUsed := 5 }

/-- The offline session after the C1 run. -/
def sessionAAfter : OfflineSessions :=
  { refresh := [("C1", { id := "R1", lastUsed := 5 })], connectorData := [] }

/-! Helper lemmas about the association-list tables. -/

/-- Updating a key and then looking it up returns the new value whenever the
key was present. -/
theorem lookupTok_setTok (m : List (String × StoredRefreshToken)) (k : String)
    (v : StoredRefreshToken) :
    lookupTok (setTok m k v) k = (lookupTok m k).map (fun _ => v) := by
  induction m with
  | nil => rfl
  | cons hd tl ih =>
    obtain ⟨k1, v1⟩ := hd
    by_cases h : k1 = k
    · subst h
      simp [setTok, lookupTok]
    · simp [setTok, lookupTok, h, ih]

/-- Session-table analogue of `lookupTok_setTok`. -/
theorem lookupSess_setSess (m : List ((String × String) × OfflineSessions))
    (k : String × String) (v : OfflineSessions) :
    lookupSess (setSess m k v) k = (lookupSess m k).map (fun _ => v) := by
  induction m with
  | nil => rfl
  | cons hd tl ih =>
    obtain ⟨k1, v1⟩ := hd
    by_cases h : k1 = k
    · subst h
      simp [setSess, lookupSess]
    · simp [setSess, lookupSess, h, ih]

/-- Refresh-reference analogue of `lookupTok_setTok`. -/
theorem lookupRef_setRef (m : List (String × RefreshTokenRef)) (k : String)
    (v : RefreshTokenRef) :
    lookupRef (setRef m k v) k = (lookupRef m k).map (fun _ => v) := by
  induction m with
  | nil => rfl
  | cons hd tl ih =>
    obtain ⟨k1, v1⟩ := hd
    by_cases h : k1 = k
    · subst h
      simp [setRef, lookupRef]
    · simp [setRef, lookupRef, h, ih]

/-- A field split of an all-whitespace character list is empty. -/
theorem fieldsAux_all_whitespace (l : List Char)
    (h : ∀ c ∈ l, c.isWhitespace = true) : fieldsAux l [] = [] := by
  induction l with
  | nil => rfl
  | cons c cs ih =>
    have hc : c.isWhitespace = true := h c (List.mem_cons_self c cs)
    simp only [fieldsAux, hc, if_true, List.isEmpty_nil]
    exact ih (fun d hd => h d (List.mem_cons_of_mem c hd))

/-- A rotated record: current secret T2, obsolete secret T1. -/
def storedReuse : StoredRefreshToken :=
  { storedA with token := "T2", obsoleteToken := "T1" }

/-- A refreshed identity distinct from the stored claims in every mutable
field. -/
def identB : Identity :=
  { userID := "U1", username := "u2", preferredUsername := "p", email := "e2"
    emailVerified := false, groups := ["b"], connectorData := [7] }

/-- C8: if the scope form field is the empty string the reconciled scopes are
exactly the stored scopes; otherwise the field is split on whitespace, every
requested scope must be an exact member of the stored scopes (in which case
the result is the requested list as presented, duplicates included), and any
unauthorized scope yields an invalid_request error whose description lists
the offending scopes. -/
theorem getRefreshScopes_reconciliation (refresh : StoredRefreshToken) :
    (getRefreshScopes "" refresh = .ok refresh.scopes)
    ∧ (∀ sc, sc ≠ "" →
        (∀ x ∈ stringFields sc, contains refresh.scopes x = true) →
        getRefreshScopes sc refresh = .ok (stringFields sc))
    ∧ (∀ sc, sc ≠ "" →
        (stringFields sc).filter (fun x => ! contains refresh.scopes x) ≠ [] →
        getRefreshScopes sc refresh =
          .error (newBadRequestError (unauthorizedScopesDesc
            ((stringFields sc).filter (fun x => ! contains refresh.scopes x))))) := by
  refine ⟨by simp [getRefreshScopes], ?_, ?_⟩
  · intro sc hne hall
    have hfil : (stringFields sc).filter (fun x => ! contains refresh.scopes x) = [] := by
      rw [List.filter_eq_nil_iff]
      intro a ha
      simp [hall a ha]
    simp [getRefreshScopes, hne, hfil]
  · intro sc hne hfil
    have hlen : 0 < ((stringFields sc).filter (fun x => ! contains refresh.scopes x)).length :=
      List.length_pos.mpr hfil
    simp only [getRefreshScopes, if_neg hne]
    rw [if_pos hlen]

/-- Witness for C8 at concrete inputs: an omitted scope field returns the
stored scopes, an authorized duplicated request is returned as presented,
and an unauthorized request fails listing the offender. -/
theorem getRefreshScopes_reconciliation_witness :
    (getRefreshScopes "" storedA = .ok ["openid"])
    ∧ (getRefreshScopes "openid openid" storedA = .ok ["openid", "openid"])
    ∧ (getRefreshScopes "openid profile" storedA =
        .error (newBadRequestError
          "Requested scopes contain unauthorized scope(s): [\"profile\"].")) := by
  refine ⟨(getRefreshScopes_reconciliation storedA).1, ?_, ?_⟩
  · have h := (getRefreshScopes_reconciliation storedA).2.1 "openid openid"
      (by decide) (by decide)
    simpa using h
  · have h := (getRefreshScopes_reconciliation storedA).2.2 "openid profile"
      (by decide) (by decide)
    simpa using h

/-- C10: a scope form field that is non-empty but all whitespace bypasses the
stored-scopes default and splits to no requested scopes, so reconciliation
returns the empty scope list. -/
theorem getRefreshScopes_whitespace_only (sc : String) (refresh : StoredRefreshToken)
    (hne : sc ≠ "") (hws : ∀ c ∈ sc.data, c.isWhitespace = true) :
    getRefreshScopes sc refresh = .ok [] := by
  have hf : stringFields sc = [] := fieldsAux_all_whitespace sc.data hws
  simp [getRefreshScopes, hne, hf]

/-- Witness for C10: a single-space scope field yields the empty list even
though the stored scopes are non-empty. -/
theorem getRefreshScopes_whitespace_only_witness :
    getRefreshScopes " " storedA = .ok [] ∧ storedA.scopes = ["openid"] :=
  ⟨getRefreshScopes_whitespace_only " " storedA (by decide) (by decide), rfl⟩

/-- C3: on a secret mismatch, and absent expiry, the validator accepts the
handle exactly when the reuse window is open, the stored obsolete token
equals the presented secret, and the stored obsolete token is non-empty; any
other mismatch yields the invalid_request error with HTTP status 400. -/
theorem validator_mismatch_accept_iff (p : RefreshTokenPolicy) (clientID : String)
    (token : InternalRefreshToken) (refresh : StoredRefreshToken)
    (hcid : refresh.clientID = clientID)
    (hmm : refresh.token ≠ token.token)
    (hce : p.completelyExpired refresh.createdAt = false)
    (heu : p.expiredBecauseUnused refresh.lastUsed = false) :
    (getRefreshTokenFromStorage p clientID token (.found refresh) = .ok refresh ↔
      (p.allowedToReuse refresh.lastUsed = true ∧ refresh.obsoleteToken = token.token ∧
        refresh.obsoleteToken ≠ ""))
    ∧ (¬ (p.allowedToReuse refresh.lastUsed = true ∧ refresh.obsoleteToken = token.token ∧
          refresh.obsoleteToken ≠ "") →
        getRefreshTokenFromStorage p clientID token (.found refresh) =
          .error (newBadRequestError (invalidErrDesc clientID token.refreshId))
        ∧ (newBadRequestError (invalidErrDesc clientID token.refreshId)).msg = errInvalidRequest
        ∧ (newBadRequestError (invalidErrDesc clientID token.refreshId)).code = 400) := by
  have h1 : ¬ (refresh.clientID ≠ clientID) := by simp [hcid]
  by_cases htriple : (p.allowedToReuse refresh.lastUsed = true ∧
      refresh.obsoleteToken = token.token ∧ refresh.obsoleteToken ≠ "")
  · obtain ⟨ha, hb, hc⟩ := htriple
    have hnd : ¬ (refresh.token ≠ token.token ∧
        (p.allowedToReuse refresh.lastUsed = false ∨ refresh.obsoleteToken ≠ token.token ∨
          refresh.obsoleteToken = "")) := by
      rintro ⟨-, (h | h | h)⟩
      · simp [ha] at h
      · exact h hb
      · exact hc h
    have hres : getRefreshTokenFromStorage p clientID token (.found refresh) = .ok refresh := by
      simp only [getRefreshTokenFromStorage]
      rw [if_neg h1, if_neg hnd, if_neg (by simp [hce]), if_neg (by simp [heu])]
    exact ⟨hres ▸ iff_of_true rfl ⟨ha, hb, hc⟩, fun hcon => absurd ⟨ha, hb, hc⟩ hcon⟩
  · have hdis : p.allowedToReuse refresh.lastUsed = false ∨
        refresh.obsoleteToken ≠ token.token ∨ refresh.obsoleteToken = "" := by
      by_cases ha : p.allowedToReuse refresh.lastUsed = true
      · by_cases hb : refresh.obsoleteToken = token.token
        · by_cases hc : refresh.obsoleteToken = ""
          · exact Or.inr (Or.inr hc)
          · exact absurd ⟨ha, hb, hc⟩ htriple
        · exact Or.inr (Or.inl hb)
      · exact Or.inl (Bool.eq_false_iff.mpr ha)
    have hres : getRefreshTokenFromStorage p clientID token (.found refresh) =
        .error (newBadRequestError (invalidErrDesc clientID token.refreshId)) := by
      simp only [getRefreshTokenFromStorage]
      rw [if_neg h1, if_pos ⟨hmm, hdis⟩]
    exact ⟨hres ▸ iff_of_false (by simp) htriple, fun _ => ⟨hres, rfl, rfl⟩⟩

/-- Witness for C3: a mismatch within the open reuse window with matching
non-empty obsolete token is accepted; closing the window rejects it with the
invalid_request error. -/
theorem validator_mismatch_accept_iff_witness :
    (getRefreshTokenFromStorage polRot "C1" { refreshId := "R1", token := "T1" }
        (.found storedReuse) = .ok storedReuse)
    ∧ (getRefreshTokenFromStorage polOff "C1" { refreshId := "R1", token := "T1" }
        (.found storedReuse) =
      .error (newBadRequestError (invalidErrDesc "C1" "R1"))) := by
  constructor
  · exact (validator_mismatch_accept_iff polRot "C1" { refreshId := "R1", token := "T1" }
      storedReuse (by decide) (by decide) (by decide) (by decide)).1.mpr (by decide)
  · exact ((validator_mismatch_accept_iff polOff "C1" { refreshId := "R1", token := "T1" }
      storedReuse (by decide) (by decide) (by decide) (by decide)).2 (by decide)).1

/-- Counterexample for C5: a storage failure other than not-found is reported
with HTTP status 500, but its OAuth2 error string is `invalid_request`
(`newInternalServerError` reuses `errInvalidRequest`), not `server_error`. -/
theorem validator_internal_error_string_cex :
    getRefreshTokenFromStorage polOff "C1" { refreshId := "R1", token := "" } .otherError =
      .error { msg := "invalid_request", code := 500, desc := "" }
    ∧ errInvalidRequest ≠ "server_error" :=
  ⟨rfl, by decide⟩

/-- C5 (amended): the validator's checks run in the fixed order load, client
binding, secret match, absolute expiry, idle expiry; storage not-found yields
invalid_request with the non-disclosing message, any other storage error
yields HTTP 500 whose OAuth2 error string is invalid_request, and a
mismatched stored client id yields invalid_grant (HTTP 400) for every stored
record, before any secret or expiry check is considered. -/
theorem validator_order_and_error_mapping (p : RefreshTokenPolicy) (clientID : String)
    (token : InternalRefreshToken) :
    (getRefreshTokenFromStorage p clientID token .otherError =
      .error { msg := errInvalidRequest, code := 500, desc := "" })
    ∧ (getRefreshTokenFromStorage p clientID token .notFound =
      .error (newBadRequestError (invalidErrDesc clientID token.refreshId)))
    ∧ (∀ refresh : StoredRefreshToken, refresh.clientID ≠ clientID →
      getRefreshTokenFromStorage p clientID token (.found refresh) =
        .error { msg := errInvalidGrant, code := 400
                 desc := invalidErrDesc clientID token.refreshId })
    ∧ (∀ refresh : StoredRefreshToken, refresh.clientID = clientID →
      refresh.token ≠ token.token →
      ¬ (p.allowedToReuse refresh.lastUsed = true ∧ refresh.obsoleteToken = token.token ∧
        refresh.obsoleteToken ≠ "") →
      getRefreshTokenFromStorage p clientID token (.found refresh) =
        .error (newBadRequestError (invalidErrDesc clientID token.refreshId)))
    ∧ (∀ refresh : StoredRefreshToken, refresh.clientID = clientID →
      refresh.token = token.token →
      p.completelyExpired refresh.createdAt = true →
      getRefreshTokenFromStorage p clientID token (.found refresh) =
        .error (newBadRequestError "Refresh token expired."))
    ∧ (∀ refresh : StoredRefreshToken, refresh.clientID = clientID →
      refresh.token = token.token →
      p.completelyExpired refresh.createdAt = false →
      p.expiredBecauseUnused refresh.lastUsed = true →
      getRefreshTokenFromStorage p clientID token (.found refresh) =
        .error (newBadRequestError "Refresh token expired.")) := by
  refine ⟨rfl, rfl, ?_, ?_, ?_, ?_⟩
  · intro refresh hne
    simp only [getRefreshTokenFromStorage]
    rw [if_pos hne]
    rfl
  · intro refresh hcid hmm htriple
    have hdis : p.allowedToReuse refresh.lastUsed = false ∨
        refresh.obsoleteToken ≠ token.token ∨ refresh.obsoleteToken = "" := by
      by_cases ha : p.allowedToReuse refresh.lastUsed = true
      · by_cases hb : refresh.obsoleteToken = token.token
        · by_cases hc : refresh.obsoleteToken = ""
          · exact Or.inr (Or.inr hc)
          · exact absurd ⟨ha, hb, hc⟩ htriple
        · exact Or.inr (Or.inl hb)
      · exact Or.inl (Bool.eq_false_iff.mpr ha)
    simp only [getRefreshTokenFromStorage]
    rw [if_neg (by simp [hcid]), if_pos ⟨hmm, hdis⟩]
  · intro refresh hcid htok hce
    simp only [getRefreshTokenFromStorage]
    rw [if_neg (by simp [hcid]), if_neg (by simp [htok]), if_pos hce]
  · intro refresh hcid htok hce heu
    simp only [getRefreshTokenFromStorage]
    rw [if_neg (by simp [hcid]), if_neg (by simp [htok]), if_neg (by simp [hce]),
      if_pos heu]

/-- Witness for C5 at concrete inputs: the cross-client rejection fires on a
record whose secret matches and which is not expired, and the remaining
mappings evaluate as stated. -/
theorem validator_order_and_error_mapping_witness :
    (getRefreshTokenFromStorage polRot "C2" { refreshId := "R1", token := "T1" }
        (.found storedA) =
      .error { msg := errInvalidGrant, code := 400, desc := invalidErrDesc "C2" "R1" })
    ∧ (getRefreshTokenFromStorage polRot "C1" { refreshId := "R1", token := "TX" }
        (.found storedA) =
      .error (newBadRequestError (invalidErrDesc "C1" "R1"))) := by
  constructor
  · exact (validator_order_and_error_mapping polRot "C2"
      { refreshId := "R1", token := "T1" }).2.2.1 storedA (by decide)
  · exact (validator_order_and_error_mapping polRot "C1"
      { refreshId := "R1", token := "TX" }).2.2.2.1 storedA (by decide) (by decide) (by decide)

/-- C6: every non-error result of the refresh-token updater leaves the
record's id, client binding, connector binding, creation time, and subject
user id unchanged from the freshest persisted value passed in. -/
theorem updater_preserves_binding (p : RefreshTokenPolicy)
    (token newToken : InternalRefreshToken) (ident : Identity) (lastUsed : Nat)
    (old new : StoredRefreshToken) (nt : InternalRefreshToken) (lu : Nat)
    (h : refreshTokenUpdater p token newToken ident lastUsed old = .ok (new, nt, lu)) :
    new.id = old.id ∧ new.clientID = old.clientID ∧ new.connectorID = old.connectorID
      ∧ new.createdAt = old.createdAt ∧ new.claims.userID = old.claims.userID := by
  unfold refreshTokenUpdater at h
  split at h
  · split at h
    · split at h
      · simp only [Except.ok.injEq, Prod.mk.injEq] at h
        obtain ⟨h1, -, -⟩ := h
        subst h1
        exact ⟨rfl, rfl, rfl, rfl, rfl⟩
      · exact Except.noConfusion h
    · simp only [Except.ok.injEq, Prod.mk.injEq] at h
      obtain ⟨h1, -, -⟩ := h
      subst h1
      exact ⟨rfl, rfl, rfl, rfl, rfl⟩
  · simp only [Except.ok.injEq, Prod.mk.injEq] at h
    obtain ⟨h1, -, -⟩ := h
    subst h1
    exact ⟨rfl, rfl, rfl, rfl, rfl⟩

/-- Witness for C6: the updater run at a concrete rotation preserves the five
binding fields. -/
theorem updater_preserves_binding_witness :
    (applyClaimsUpdate { storedA with obsoleteToken := storedA.token }
        { refreshId := "R1", token := "T2" } identB 5).id = storedA.id
    ∧ (applyClaimsUpdate { storedA with obsoleteToken := storedA.token }
        { refreshId := "R1", token := "T2" } identB 5).clientID = storedA.clientID
    ∧ (applyClaimsUpdate { storedA with obsoleteToken := storedA.token }
        { refreshId := "R1", token := "T2" } identB 5).connectorID = storedA.connectorID
    ∧ (applyClaimsUpdate { storedA with obsoleteToken := storedA.token }
        { refreshId := "R1", token := "T2" } identB 5).createdAt = storedA.createdAt
    ∧ (applyClaimsUpdate { storedA with obsoleteToken := storedA.token }
        { refreshId := "R1", token := "T2" } identB 5).claims.userID = storedA.claims.userID :=
  updater_preserves_binding polRot { refreshId := "R1", token := "T1" }
    { refreshId := "R1", token := "T2" } identB 5 storedA
    (applyClaimsUpdate { storedA with obsoleteToken := storedA.token }
      { refreshId := "R1", token := "T2" } identB 5)
    { refreshId := "R1", token := "T2" } 5 rfl

/-- C9: with rotation disabled the updater never compares the freshest stored
secret with the presented one; it unconditionally installs the presented
secret into the stored token field (even when the stored secret differs, as
on the obsolete-token reuse path), and the handle handed back to the client
is the presented handle. -/
theorem rotation_disabled_unconditional_overwrite (s : ServerCfg)
    (token : InternalRefreshToken) (refresh : StoredRefreshToken) (ident : Identity)
    (w : World) (old : StoredRefreshToken) (sess : OfflineSessions) (ref : RefreshTokenRef)
    (hrot : s.refreshTokenPolicy.rotationEnabled = false)
    (hold : lookupTok w.refreshTokens refresh.id = some old)
    (hsess : lookupSess w.sessions (refresh.claims.userID, refresh.connectorID) = some sess)
    (href : lookupRef sess.refresh refresh.clientID = some ref)
    (hid : ref.id = refresh.id) :
    refreshTokenUpdater s.refreshTokenPolicy token token ident s.now old =
      .ok (applyClaimsUpdate old token ident s.now, token, s.now)
    ∧ (applyClaimsUpdate old token ident s.now).token = token.token
    ∧ (updateRefreshToken s token refresh ident w).1 = .ok token := by
  have hupd : refreshTokenUpdater s.refreshTokenPolicy token token ident s.now old =
      .ok (applyClaimsUpdate old token ident s.now, token, s.now) := by
    unfold refreshTokenUpdater
    rw [if_neg (by simp [hrot])]
  refine ⟨hupd, rfl, ?_⟩
  simp only [updateRefreshToken, hrot, if_false, Bool.false_eq_true, hold]
  rw [hupd]
  simp only [updateOfflineSession, hsess, offlineSessionUpdater, href]
  rw [if_neg (by simp [hid])]

/-- Witness for C9: with rotation disabled, presenting the obsolete secret T1
against a record whose current secret is T2 overwrites the stored secret with
T1 and returns the presented handle. -/
theorem rotation_disabled_unconditional_overwrite_witness :
    refreshTokenUpdater polOff { refreshId := "R1", token := "T1" }
        { refreshId := "R1", token := "T1" } identB 5 storedReuse =
      .ok (applyClaimsUpdate storedReuse { refreshId := "R1", token := "T1" } identB 5,
        { refreshId := "R1", token := "T1" }, 5)
    ∧ (applyClaimsUpdate storedReuse { refreshId := "R1", token := "T1" } identB 5).token = "T1"
    ∧ (updateRefreshToken
        { refreshTokenPolicy := polOff
          groupsPrefixEnabled := false
          unmarshalToken := fun _ => none
          getConnector := fun _ => none
          mintAccessResult := some "AT"
          mintIDResult := some ("IDT", 30)
          newId := "T9"
          now := 5 }
        { refreshId := "R1", token := "T1" } storedReuse identB
        { refreshTokens := [("R1", storedReuse)]
          sessions := [(("U1", "ldap"), sessionA)] }).1 =
      .ok { refreshId := "R1", token := "T1" } :=
  rotation_disabled_unconditional_overwrite
    { refreshTokenPolicy := polOff
      groupsPrefixEnabled := false
      unmarshalToken := fun _ => none
      getConnector := fun _ => none
      mintAccessResult := some "AT"
      mintIDResult := some ("IDT", 30)
      newId := "T9"
      now := 5 }
    { refreshId := "R1", token := "T1" } storedReuse identB
    { refreshTokens := [("R1", storedReuse)]
      sessions := [(("U1", "ldap"), sessionA)] }
    storedReuse sessionA { id := "R1", lastUsed := 0 }
    rfl rfl rfl rfl rfl

/-- C2: with rotation enabled, when the freshest stored token differs from
the presented secret, the reuse window is open for the stored last_used, and
the stored obsolete token equals the presented secret, the rotator adopts the
winning rotation: the returned handle carries the current stored secret, the
stored record is persisted unmodified, and the last_used value written into
the offline-session reference is the stored record's prior last_used. -/
theorem rotator_reuse_window_idempotent (s : ServerCfg)
    (token : InternalRefreshToken) (refresh : StoredRefreshToken) (ident : Identity)
    (w : World) (old : StoredRefreshToken) (sess : OfflineSessions) (ref : RefreshTokenRef)
    (hrot : s.refreshTokenPolicy.rotationEnabled = true)
    (hold : lookupTok w.refreshTokens refresh.id = some old)
    (hne : old.token ≠ token.token)
    (hwin : s.refreshTokenPolicy.allowedToReuse old.lastUsed = true)
    (hobs : old.obsoleteToken = token.token)
    (hsess : lookupSess w.sessions (refresh.claims.userID, refresh.connectorID) = some sess)
    (href : lookupRef sess.refresh refresh.clientID = some ref)
    (hid : ref.id = refresh.id) :
    (updateRefreshToken s token refresh ident w).1 =
      .ok { refreshId := refresh.id, token := old.token }
    ∧ lookupTok (updateRefreshToken s token refresh ident w).2.refreshTokens refresh.id =
      some old
    ∧ lookupSess (updateRefreshToken s token refresh ident w).2.sessions
        (refresh.claims.userID, refresh.connectorID) =
      some { sess with
        refresh := setRef sess.refresh refresh.clientID { ref with lastUsed := old.lastUsed }
        connectorData := ident.connectorData }
    ∧ lookupRef (setRef sess.refresh refresh.clientID { ref with lastUsed := old.lastUsed })
        refresh.clientID = some { ref with lastUsed := old.lastUsed } := by
  have hupd : refreshTokenUpdater s.refreshTokenPolicy token
      { refreshId := refresh.id, token := s.newId } ident s.now old =
      .ok (old, { refreshId := refresh.id, token := old.token }, old.lastUsed) := by
    unfold refreshTokenUpdater
    rw [if_pos hrot, if_pos hne, if_pos ⟨hwin, hobs⟩]
  have hmain : updateRefreshToken s token refresh ident w =
      (.ok { refreshId := refresh.id, token := old.token },
        { refreshTokens := setTok w.refreshTokens refresh.id old
          sessions := setSess w.sessions (refresh.claims.userID, refresh.connectorID)
            { sess with
              refresh := setRef sess.refresh refresh.clientID { ref with lastUsed := old.lastUsed }
              connectorData := ident.connectorData } }) := by
    simp only [updateRefreshToken, hrot, if_true, hold]
    rw [hupd]
    simp only [updateOfflineSession, hsess, offlineSessionUpdater, href]
    rw [if_neg (by simp [hid])]
  refine ⟨by rw [hmain], ?_, ?_, ?_⟩
  · rw [hmain]
    simp only [lookupTok_setTok, hold]
    rfl
  · rw [hmain]
    simp only [lookupSess_setSess, hsess]
    rfl
  · simp only [lookupRef_setRef, href]
    rfl

/-- Witness for C2: a retry with the obsolete secret T1 inside the open reuse
window returns the winning rotation's secret T2, leaves the stored record
untouched, and rewrites the session reference with the prior last_used. -/
theorem rotator_reuse_window_idempotent_witness :
    (updateRefreshToken cfgA { refreshId := "R1", token := "T1" } storedReuse identB
        { refreshTokens := [("R1", storedReuse)]
          sessions := [(("U1", "ldap"), sessionA)] }).1 =
      .ok { refreshId := "R1", token := "T2" }
    ∧ lookupTok (updateRefreshToken cfgA { refreshId := "R1", token := "T1" } storedReuse identB
        { refreshTokens := [("R1", storedReuse)]
          sessions := [(("U1", "ldap"), sessionA)] }).2.refreshTokens "R1" =
      some storedReuse := by
  have h := rotator_reuse_window_idempotent cfgA { refreshId := "R1", token := "T1" }
    storedReuse identB
    { refreshTokens := [("R1", storedReuse)]
      sessions := [(("U1", "ldap"), sessionA)] }
    storedReuse sessionA { id := "R1", lastUsed := 0 }
    rfl rfl (by decide) rfl rfl rfl rfl rfl
  exact ⟨h.1, h.2.1⟩

/-- A stored record carrying non-empty record-level connector data. -/
def storedCD : StoredRefreshToken := { storedA with connectorData := [1] }

/-- Counterexample for C4: with non-empty record-level connector data but a
not-found offline session, the seeded identity's connector data is empty, not
the record-level value — the error case of the Go switch is examined before
the record-level preference. -/
theorem connector_data_not_found_cex :
    storedCD.connectorData = [1]
    ∧ refreshWithConnector polRot { refreshId := "R1", token := "T1" } storedCD ["openid"]
        .notFound (some connNoRefresh) =
      .ok { userID := "U1", username := "u", preferredUsername := "", email := "e"
            emailVerified := true, groups := ["a"], connectorData := [] }
    ∧ ([] : List Nat) ≠ [1] :=
  ⟨rfl, rfl, by decide⟩

/-- C4 (amended): the record-level connector data is preferred over the
session's only when the offline session loads successfully; a not-found
session is tolerated with the seeded connector data left empty regardless of
the record-level value; any other session-load error yields the internal
error with HTTP status 500; and the identity seeded from the stored claims
carries exactly the chosen connector data. -/
theorem connector_data_selection (p : RefreshTokenPolicy) (token : InternalRefreshToken)
    (refresh : StoredRefreshToken) (scopes : List String) :
    (∀ sess : OfflineSessions, refresh.connectorData.length > 0 →
      chooseConnectorData refresh (.found sess) = .ok refresh.connectorData)
    ∧ (∀ sess : OfflineSessions, refresh.connectorData = [] →
      chooseConnectorData refresh (.found sess) = .ok sess.connectorData)
    ∧ chooseConnectorData refresh .notFound = .ok []
    ∧ (chooseConnectorData refresh .otherError = .error newInternalServerError
        ∧ newInternalServerError.code = 500)
    ∧ (∀ conn, refreshWithConnector p token refresh scopes .otherError conn =
        .error newInternalServerError)
    ∧ (∀ sres conn data, chooseConnectorData refresh sres = .ok data →
        conn.hasRefresh = false →
        refreshWithConnector p token refresh scopes sres (some conn) =
          .ok { userID := refresh.claims.userID, username := refresh.claims.username
                preferredUsername := refresh.claims.preferredUsername
                email := refresh.claims.email, emailVerified := refresh.claims.emailVerified
                groups := refresh.claims.groups, connectorData := data }) := by
  refine ⟨?_, ?_, rfl, ⟨rfl, rfl⟩, fun conn => rfl, ?_⟩
  · intro sess h
    simp only [chooseConnectorData]
    rw [if_pos h]
  · intro sess h
    simp only [chooseConnectorData]
    rw [if_neg (by simp [h])]
  · intro sres conn data hdata hnr
    simp only [refreshWithConnector, hdata]
    by_cases hreuse : (p.allowedToReuse refresh.lastUsed = true ∧
        token.token = refresh.obsoleteToken)
    · rw [if_pos hreuse]
    · rw [if_neg hreuse, if_neg (by simp [hnr])]

/-- Witness for C4 at concrete inputs: with a loaded session, non-empty
record-level data wins; with empty record-level data the session value is
used; and the seeded identity propagates the choice. -/
theorem connector_data_selection_witness :
    chooseConnectorData storedCD (.found { refresh := [], connectorData := [9] }) = .ok [1]
    ∧ chooseConnectorData storedA (.found { refresh := [], connectorData := [9] }) = .ok [9]
    ∧ refreshWithConnector polOff { refreshId := "R1", token := "T1" } storedCD ["openid"]
        (.found { refresh := [], connectorData := [9] }) (some connNoRefresh) =
      .ok { userID := "U1", username := "u", preferredUsername := "", email := "e"
            emailVerified := true, groups := ["a"], connectorData := [1] } := by
  have h := connector_data_selection polOff { refreshId := "R1", token := "T1" }
    storedCD ["openid"]
  refine ⟨h.1 { refresh := [], connectorData := [9] } (by decide), ?_, ?_⟩
  · exact (connector_data_selection polOff { refreshId := "R1", token := "T1" }
      storedA ["openid"]).2.1 { refresh := [], connectorData := [9] } (by decide)
  · exact h.2.2.2.2.2 (.found { refresh := [], connectorData := [9] }) connNoRefresh [1]
      (h.1 { refresh := [], connectorData := [9] } (by decide)) rfl

/-- C7: a failure at any stage before the rotator — token extraction,
validation, scope reconciliation, identity refresh, access-token minting, or
ID-token minting — makes the handler return exactly the one error envelope of
the failing stage, run no later stage, and leave the world (both the stored
refresh token and the offline session) unchanged. -/
theorem pipeline_stops_on_early_failure (s : ServerCfg) (w : World)
    (clientID rtf scf : String) :
    (∀ e, extractRefreshTokenFromRequest s rtf = .error e →
      handleRefreshToken s w clientID rtf scf = (.failure e, w))
    ∧ (∀ token e, extractRefreshTokenFromRequest s rtf = .ok token →
      getRefreshTokenFromStorage s.refreshTokenPolicy clientID token
        (w.getRefresh token.refreshId) = .error e →
      handleRefreshToken s w clientID rtf scf = (.failure e, w))
    ∧ (∀ token refresh e, extractRefreshTokenFromRequest s rtf = .ok token →
      getRefreshTokenFromStorage s.refreshTokenPolicy clientID token
        (w.getRefresh token.refreshId) = .ok refresh →
      getRefreshScopes scf refresh = .error e →
      handleRefreshToken s w clientID rtf scf = (.failure e, w))
    ∧ (∀ token refresh scopes e, extractRefreshTokenFromRequest s rtf = .ok token →
      getRefreshTokenFromStorage s.refreshTokenPolicy clientID token
        (w.getRefresh token.refreshId) = .ok refresh →
      getRefreshScopes scf refresh = .ok scopes →
      refreshWithConnector s.refreshTokenPolicy token refresh scopes
        (w.getOfflineSessions refresh.claims.userID refresh.connectorID)
        (s.getConnector refresh.connectorID) = .error e →
      handleRefreshToken s w clientID rtf scf = (.failure e, w))
    ∧ (∀ token refresh scopes ident0, extractRefreshTokenFromRequest s rtf = .ok token →
      getRefreshTokenFromStorage s.refreshTokenPolicy clientID token
        (w.getRefresh token.refreshId) = .ok refresh →
      getRefreshScopes scf refresh = .ok scopes →
      refreshWithConnector s.refreshTokenPolicy token refresh scopes
        (w.getOfflineSessions refresh.claims.userID refresh.connectorID)
        (s.getConnector refresh.connectorID) = .ok ident0 →
      s.mintAccessResult = none →
      handleRefreshToken s w clientID rtf scf = (.failure newInternalServerError, w))
    ∧ (∀ token refresh scopes ident0 atk, extractRefreshTokenFromRequest s rtf = .ok token →
      getRefreshTokenFromStorage s.refreshTokenPolicy clientID token
        (w.getRefresh token.refreshId) = .ok refresh →
      getRefreshScopes scf refresh = .ok scopes →
      refreshWithConnector s.refreshTokenPolicy token refresh scopes
        (w.getOfflineSessions refresh.claims.userID refresh.connectorID)
        (s.getConnector refresh.connectorID) = .ok ident0 →
      s.mintAccessResult = some atk →
      s.mintIDResult = none →
      handleRefreshToken s w clientID rtf scf = (.failure newInternalServerError, w)) := by
  refine ⟨?_, ?_, ?_, ?_, ?_, ?_⟩
  · intro e h1
    simp only [handleRefreshToken, h1]
  · intro token e h1 h2
    simp only [handleRefreshToken, h1, h2]
  · intro token refresh e h1 h2 h3
    simp only [handleRefreshToken, h1, h2, h3]
  · intro token refresh scopes e h1 h2 h3 h4
    simp only [handleRefreshToken, h1, h2, h3, h4]
  · intro token refresh scopes ident0 h1 h2 h3 h4 h5
    simp only [handleRefreshToken, h1, h2, h3, h4, h5]
  · intro token refresh scopes ident0 atk h1 h2 h3 h4 h5 h6
    simp only [handleRefreshToken, h1, h2, h3, h4, h5, h6]

/-- Server configuration identical to `cfgA` except that access-token minting
fails. -/
def cfgMintFail : ServerCfg := { cfgA with mintAccessResult := none }

/-- Witness for C7 at concrete inputs: a missing refresh_token form field and
a failing access-token mint each produce the single error envelope and leave
the world untouched. -/
theorem pipeline_stops_on_early_failure_witness :
    handleRefreshToken cfgA worldA "C1" "" "" =
      (.failure (newBadRequestError "No refresh token is found in request."), worldA)
    ∧ handleRefreshToken cfgMintFail worldA "C1" "tokR1T1" "" =
      (.failure newInternalServerError, worldA) := by
  constructor
  · exact (pipeline_stops_on_early_failure cfgA worldA "C1" "" "").1
      (newBadRequestError "No refresh token is found in request.") rfl
  · exact (pipeline_stops_on_early_failure cfgMintFail worldA "C1" "tokR1T1" "").2.2.2.2.1
      { refreshId := "R1", token := "T1" } storedA ["openid"]
      { userID := "U1", username := "u", preferredUsername := "", email := "e"
        emailVerified := true, groups := ["a"], connectorData := [] }
      rfl rfl rfl rfl rfl

/-- C1 evaluated at a concrete failing input: with the groups-prefix option
enabled, a successful refresh mints tokens whose claims carry the prefixed
groups [ldap:a] — but the rotator also persists those prefixed groups into
the stored refresh token's claims, because the prefixing loop rewrites the
identity's group slice in place before `updateRefreshToken` receives the same
identity.  The stored groups do not remain the connector's unprefixed [a]. -/
theorem groups_prefix_written_back_to_storage :
    handleRefreshToken cfgA worldA "C1" "tokR1T1" "" =
      (.success { claimsA with groups := ["ldap:a"] } ["openid"]
        { refreshId := "R1", token := "T2" } "AT" "IDT" 30,
       { refreshTokens := [("R1", storedAAfter)]
         sessions := [(("U1", "ldap"), sessionAAfter)] })
    ∧ storedAAfter.claims.groups = ["ldap:a"]
    ∧ storedA.claims.groups = ["a"]
    ∧ (["ldap:a"] : List String) ≠ ["a"] := by
  refine ⟨by decide, rfl, rfl, by decide⟩

end Dex
